import Mathlib

/-!
Formal model of the wbor-groupme message relay.

Shallow embedding of the repository's Python sources:
`src/config.py`, `src/rabbitmq/consumer.py`, `src/rabbitmq/publisher.py`,
`src/routes/send.py`, `src/utils/groupme.py`, `src/utils/command_parser.py`.

Strings are modelled as Lean `String`s (kernel-level lists of characters),
message bodies that get sliced are modelled as `List Char`, JSON-style
dictionaries as association lists with string keys.  Fallible Python code is
modelled with `Except`; exceptions that the source raises are explicit error
values.
-/

namespace Wbor

/-- A Python runtime exception, restricted to the kinds the modelled code can
raise: `AttributeError` (attribute lookup on an object lacking it),
`TypeError` (an operation applied to a value of the wrong type), and
`requests.exceptions.RequestException` (a network-level fault). -/
inductive PyErr where
  | attributeError
  | typeError
  | requestException
deriving DecidableEq

/-- A JSON-style scalar value as used by the modelled dictionaries: a string,
an integer (HTTP status codes), or a list of strings (the `images` field). -/
inductive SVal where
  | str (s : String)
  | int (n : Int)
  | strList (xs : List String)
deriving DecidableEq

/-- A Python `dict` with string keys, modelled as an association list.
Lookup returns the value of the first pair with a matching key; the modelled
dictionaries never hold duplicate keys. -/
abbrev Dict := List (String × SVal)

/-- `d.get(k)`: first value stored under key `k`, if any. -/
def dictGet (d : Dict) (k : String) : Option SVal :=
  (d.find? (fun p => p.fst == k)).map Prod.snd

/-- `k in d`: key containment. -/
def dictContains (d : Dict) (k : String) : Bool :=
  d.any (fun p => p.fst == k)

/-- `d[k] = v`: replace the value stored under `k`, or append the pair when
the key is absent (Python insertion order for a fresh key). -/
def dictSet (d : Dict) (k : String) (v : SVal) : Dict :=
  if dictContains d k then d.map (fun p => if p.fst == k then (k, v) else p)
  else d ++ [(k, v)]

/-- Python truthiness of an optional field value: `None`, the empty string,
`0`, and the empty list are falsy; everything else is truthy. -/
def truthy : Option SVal → Bool
  | none => false
  | some (.str s) => !(s == "")
  | some (.int n) => !(n == 0)
  | some (.strList xs) => !xs.isEmpty

/-- Python `x or y` on two optional field values: the first operand when it is
truthy, otherwise the second. -/
def pyOr (a b : Option SVal) : Option SVal :=
  if truthy a then a else b

/-- Python `==` between an optional field value and a string literal: true
exactly when the value is present and is that string (`None == s` and
`5 == s` are false in Python). -/
def pyEqStr (o : Option SVal) (s : String) : Bool :=
  match o with
  | some (.str t) => t == s
  | _ => false

/-! ## Segmenter (`GroupMe.split_message`, src/utils/groupme.py lines 115-130)

```python
segments = [
    body[i : i + GROUPME_CHARACTER_LIMIT]
    for i in range(0, len(body), GROUPME_CHARACTER_LIMIT)
]
```

`GROUPME_CHARACTER_LIMIT` is `abs(int(os.getenv("GROUPME_CHARACTER_LIMIT",
"900")))` (src/config.py line 24), a configured natural number, default 900;
the model takes it as the explicit parameter `limit`. -/

/-- Python `range(0, stop, step)` for a positive `step`: the multiples of
`step` below `stop`, i.e. `step * j` for `j < ceil(stop / step)`.  (Python
raises `ValueError` for `step = 0`; this definition is then the empty list,
and no theorem uses it with `step = 0`.) -/
def pyRange (stop step : Nat) : List Nat :=
  (List.range ((stop + step - 1) / step)).map (fun j => j * step)

/-- `GroupMe.split_message`: slice `body` into consecutive chunks of at most
`limit` characters.  `body[i : i + limit]` is `(body.drop i).take limit`. -/
def split_message (limit : Nat) (body : List Char) : List (List Char) :=
  (pyRange body.length limit).map (fun i => (body.drop i).take limit)

theorem split_message_length (limit : Nat) (body : List Char) :
    (split_message limit body).length = (body.length + limit - 1) / limit := by
  simp [split_message, pyRange]

theorem split_message_nil (limit : Nat) : split_message limit [] = [] := by
  rcases Nat.eq_zero_or_pos limit with h | h
  · subst h; simp [split_message, pyRange]
  · simp [split_message, pyRange, Nat.div_eq_of_lt (Nat.sub_lt h Nat.one_pos)]

theorem split_message_cons (limit : Nat) (hl : 0 < limit) (b : List Char)
    (hb : b ≠ []) :
    split_message limit b = b.take limit :: split_message limit (b.drop limit) := by
  have hn : 1 ≤ b.length := List.length_pos.mpr hb
  have hcount : (b.length + limit - 1) / limit = (b.length - 1) / limit + 1 := by
    have h1 : b.length + limit - 1 = (b.length - 1) + limit := by omega
    rw [h1, Nat.add_div_right _ hl]
  have hcount2 : ((b.drop limit).length + limit - 1) / limit = (b.length - 1) / limit := by
    rw [List.length_drop]
    rcases le_or_lt limit b.length with h | h
    · congr 1; omega
    · have h2 : b.length - limit = 0 := by omega
      rw [h2, Nat.zero_add, Nat.div_eq_of_lt (Nat.sub_lt hl Nat.one_pos),
        Nat.div_eq_of_lt (by omega)]
  unfold split_message pyRange
  rw [List.map_map, List.map_map, hcount, hcount2, List.range_succ_eq_map,
    List.map_cons, List.map_map]
  congr 1
  · simp
  · refine List.map_congr_left (fun j _ => ?_)
    simp only [Function.comp_apply, Nat.succ_mul, List.drop_drop]
    rw [Nat.add_comm (j * limit) limit]

theorem split_message_join (limit : Nat) (hl : 0 < limit) (b : List Char) :
    (split_message limit b).flatten = b := by
  have key : ∀ n (b : List Char), b.length ≤ n → (split_message limit b).flatten = b := by
    intro n
    induction n with
    | zero =>
      intro b hb
      have : b = [] := List.length_eq_zero.mp (Nat.le_zero.mp hb)
      subst this
      rw [split_message_nil]; rfl
    | succ n ih =>
      intro b hb
      by_cases hbe : b = []
      · subst hbe; rw [split_message_nil]; rfl
      · rw [split_message_cons limit hl b hbe, List.flatten_cons,
          ih (b.drop limit) (by
            rw [List.length_drop]
            have : 1 ≤ b.length := List.length_pos.mpr hbe
            omega),
          List.take_append_drop]
  exact key b.length b le_rfl

theorem split_message_single (limit : Nat) (hl : 0 < limit) (b : List Char)
    (hb : b ≠ []) (hle : b.length ≤ limit) : split_message limit b = [b] := by
  rw [split_message_cons limit hl b hb, List.take_of_length_le hle,
    List.drop_eq_nil_of_le hle, split_message_nil]

/-! ## Audit publisher (`publish_log_pg`, src/rabbitmq/publisher.py lines 78-104)

```python
def publish_log_pg(body, source, statuscode, uid, routing_key="groupme", sub_key="log"):
    publish_message(
        request_body={**body, "source": source, "code": statuscode,
                      "type": sub_key, "uid": uid},
        routing_key=routing_key, ...)
```

`publish_message` (lines 16-67) prepends `"source."` to the routing key
before publishing; broker connection errors are caught and only logged
(best-effort audit), so a publish is modelled as the record/key pair that is
handed to the broker.  The modelled call sites pass `routing_key`
explicitly (`"groupme.msg"` from `GroupMe.send_to_groupme`, `"groupme.img"`
from `GroupMe.upload_image`) and omit `sub_key`, so Python fills in the
default `"log"`; the model passes that default explicitly. -/

/-- The Python value handed to `publish_log_pg` as its `body` argument:
`GroupMe.send_to_groupme` passes a dict, `GroupMe.upload_image` passes the
raw downloaded bytes (`image_response.content`). -/
inductive LogBody where
  | dict (d : Dict)
  | bytes (bs : List Nat)
deriving DecidableEq

/-- One message handed to the broker: the request body published and the
final routing key (after `publish_message` prepends `"source."`). -/
structure Publish where
  request_body : Dict
  routing_key : String
deriving DecidableEq

/-- Whether some pair of `d` has key `k`. -/
def keyMem (d : Dict) (k : String) : Bool :=
  d.any (fun p => p.fst == k)

/-- Python `{**base, **updates}` as far as lookup is concerned: pairs of
`base` whose key is overridden are dropped and the `updates` pairs appended.
(Python keeps an overridden key at its original position; only the
key-to-value mapping matters to the theorems below, and it coincides.) -/
def pyDictMerge (base updates : Dict) : Dict :=
  base.filter (fun p => !(keyMem updates p.fst)) ++ updates

/-- `publish_log_pg`.  The dict display `{**body, ...}` requires `body` to be
a mapping; when the caller passed raw bytes Python raises
`TypeError: 'bytes' object is not a mapping`, which is not a
`requests.exceptions.RequestException` and therefore propagates. -/
def publish_log_pg (body : LogBody) (source : String) (statuscode : Int)
    (uid : String) (routing_key : String) (sub_key : String) :
    Except PyErr Publish :=
  match body with
  | .dict d =>
    .ok { request_body :=
            pyDictMerge d [("source", .str source), ("code", .int statuscode),
              ("type", .str sub_key), ("uid", .str uid)],
          routing_key := "source." ++ routing_key }
  | .bytes _ => .error .typeError

theorem dictGet_cons (p : String × SVal) (d : Dict) (k : String) :
    dictGet (p :: d) k = if p.fst == k then some p.snd else dictGet d k := by
  by_cases h : (p.fst == k) = true
  · simp [dictGet, List.find?_cons_of_pos _ h, h]
  · simp [dictGet, List.find?_cons_of_neg _ h, h]

theorem keyMem_cons (p : String × SVal) (d : Dict) (k : String) :
    keyMem (p :: d) k = (p.fst == k || keyMem d k) := by
  simp [keyMem]

theorem dictGet_eq_none_of_keyMem_false (d : Dict) (k : String)
    (h : keyMem d k = false) : dictGet d k = none := by
  induction d with
  | nil => rfl
  | cons hd tl ih =>
    rw [keyMem_cons, Bool.or_eq_false_iff] at h
    rw [dictGet_cons, if_neg (by simp [h.1]), ih h.2]

theorem pyDictMerge_nil (u : Dict) : pyDictMerge [] u = u := rfl

theorem pyDictMerge_cons (p : String × SVal) (tl u : Dict) :
    pyDictMerge (p :: tl) u =
      if keyMem u p.fst then pyDictMerge tl u else p :: pyDictMerge tl u := by
  by_cases h : keyMem u p.fst = true <;>
    simp [pyDictMerge, List.filter_cons, h]

theorem dictGet_pyDictMerge_mem (base : Dict) (updates : Dict) (k : String)
    (h : keyMem updates k = true) :
    dictGet (pyDictMerge base updates) k = dictGet updates k := by
  induction base with
  | nil => rfl
  | cons hd tl ih =>
    rw [pyDictMerge_cons]
    by_cases hk : keyMem updates hd.fst = true
    · rw [if_pos (by simp [hk]), ih]
    · have hne : (hd.fst == k) = false := by
        cases hEq : hd.fst == k
        · rfl
        · exfalso
          have heq : hd.fst = k := by simpa using hEq
          rw [heq] at hk
          exact hk h
      rw [if_neg (by simp [hk]), dictGet_cons, if_neg (by simp [hne]), ih]

theorem dictGet_pyDictMerge_not_mem (base : Dict) (updates : Dict) (k : String)
    (h : keyMem updates k = false) :
    dictGet (pyDictMerge base updates) k = dictGet base k := by
  induction base with
  | nil =>
    rw [pyDictMerge_nil, dictGet_eq_none_of_keyMem_false updates k h]; rfl
  | cons hd tl ih =>
    rw [pyDictMerge_cons]
    by_cases hk : keyMem updates hd.fst = true
    · have hne : (hd.fst == k) = false := by
        cases hEq : hd.fst == k
        · rfl
        · exfalso
          have heq : hd.fst = k := by simpa using hEq
          rw [heq] at hk
          rw [h] at hk
          cases hk
      rw [if_pos (by simp [hk]), ih, dictGet_cons, if_neg (by simp [hne])]
    · rw [if_neg (by simp [hk]), dictGet_cons, dictGet_cons]
      cases hEq : hd.fst == k
      · rw [if_neg (by simp), if_neg (by simp), ih]
      · rw [if_pos (by simp), if_pos (by simp)]

/-! ## Delivery client (`GroupMe.send_to_groupme`, src/utils/groupme.py lines 198-248)

```python
def send_to_groupme(body, source, uid=MessageUtils.gen_uuid(), bot_id=GROUPME_BOT_ID):
    body["bot_id"] = bot_id
    try:
        response = requests.post(GROUPME_API, json=body, timeout=10)
        if response.status_code in {200, 202}: ...log info...
        else: ...log error...
        publish_log_pg(body, source, response.status_code, uid, routing_key="groupme.msg")
    except requests.exceptions.RequestException as e:
        publish_log_pg(body, source, 500, uid, routing_key="groupme.msg")
        raise e
```

The 200/202 classification only selects a log line; it does not change the
control flow.  The default expression `MessageUtils.gen_uuid()` of the `uid`
parameter is evaluated exactly once, when the `def` statement executes at
module import; every later call that omits `uid` reuses that single value. -/

/-- The module-level state fixed when `utils/groupme.py` is imported:
the value `MessageUtils.gen_uuid()` produced once for the `uid` parameter
default of `GroupMe.send_to_groupme`. -/
structure ModuleState where
  default_uid : String
deriving DecidableEq

/-- The outcome of the `requests.post` call to the GroupMe message API:
either a response with a status code and body text, or a network-level
fault (`requests.exceptions.RequestException`). -/
inductive PostOutcome where
  | resp (status : Int) (text : String)
  | fault
deriving DecidableEq

/-- What one call of `GroupMe.send_to_groupme` does: whether it returns
normally or propagates an exception, and the audit publishes it performs. -/
structure CallResult where
  outcome : Except PyErr Unit
  audits : List Publish

/-- `GroupMe.send_to_groupme`, with the HTTP outcome as an explicit
parameter.  `uid?` is `none` when the caller omits the `uid` argument, in
which case the module-load default applies. -/
def send_to_groupme (st : ModuleState) (post : PostOutcome) (body : Dict)
    (source : String) (uid? : Option String) (bot_id : String) : CallResult :=
  let uid := uid?.getD st.default_uid
  let body := dictSet body "bot_id" (.str bot_id)
  match post with
  | .resp status _text =>
    match publish_log_pg (.dict body) source status uid "groupme.msg" "log" with
    | .ok p => { outcome := .ok (), audits := [p] }
    | .error e => { outcome := .error e, audits := [] }
  | .fault =>
    match publish_log_pg (.dict body) source 500 uid "groupme.msg" "log" with
    | .ok p => { outcome := .error .requestException, audits := [p] }
    | .error e => { outcome := .error e, audits := [] }

/-- The `code` field of an audit record. -/
def auditCode (p : Publish) : Option SVal := dictGet p.request_body "code"

/-- The `uid` field of an audit record. -/
def auditUid (p : Publish) : Option SVal := dictGet p.request_body "uid"

/-- The `type` field of an audit record. -/
def auditType (p : Publish) : Option SVal := dictGet p.request_body "type"

/-- The `source` field of an audit record. -/
def auditSourceField (p : Publish) : Option SVal := dictGet p.request_body "source"

/-! ## String helpers mirroring the Python string methods used by the code.

They are written by structural recursion (with explicit fuel where Python's
method is a scan) so that concrete evaluations reduce inside the kernel. -/

/-- One scanning step of Python `s.replace(pat, rep)` with fuel: at each
position, if `pat` (non-empty) matches, emit `rep`, consume the match, and
continue scanning after it (replacements are never rescanned); otherwise
emit one character and continue.  Fuel at least `s.length` is enough, since
every step consumes at least one character and one unit of fuel. -/
def replaceFuel (pat rep : List Char) : Nat → List Char → List Char
  | _, [] => []
  | 0, s => s
  | Nat.succ n, c :: rest =>
    if pat.isPrefixOf (c :: rest) && !pat.isEmpty then
      rep ++ replaceFuel pat rep n (rest.drop (pat.length - 1))
    else
      c :: replaceFuel pat rep n rest

/-- Python `s.replace(pat, rep)`: replace every non-overlapping occurrence
of `pat`, scanning left to right. -/
def pyReplace (s pat rep : String) : String :=
  ⟨replaceFuel pat.toList rep.toList s.toList.length s.toList⟩

/-- Splitting accumulator for `pySplit`: cut the character list at every
occurrence of the separator character. -/
def splitCharAux (sep : Char) : List Char → List Char → List (List Char)
  | [], acc => [acc.reverse]
  | c :: rest, acc =>
    if c == sep then acc.reverse :: splitCharAux sep rest []
    else splitCharAux sep rest (c :: acc)

/-- Python `s.split(sep)` for a one-character separator: the pieces between
occurrences of `sep`, keeping empty pieces, always at least one piece. -/
def pySplit (s : String) (sep : Char) : List String :=
  (splitCharAux sep s.toList []).map (fun cs => ⟨cs⟩)

/-- Python `".".join(parts)` (and in general `sep.join(parts)`). -/
def pyJoin (sep : String) : List String → String
  | [] => ""
  | [x] => x
  | x :: y :: rest => x ++ sep ++ pyJoin sep (y :: rest)

/-- Python `s.lower()`, character by character. -/
def pyLower (s : String) : String :=
  ⟨s.toList.map Char.toLower⟩

/-- Python `uid.split("-", 1)[0]`: the text of `uid` before its first
hyphen (the whole of `uid` when it has no hyphen). -/
def uidBeforeDash (uid : String) : String :=
  ⟨uid.toList.takeWhile (fun c => !(c == '-'))⟩

/-! ## Media uploader (`GroupMe.upload_image`, src/utils/groupme.py lines 27-113)

```python
try:
    image_response = requests.get(image_url, stream=True, timeout=10)
    if image_response.status_code != 200:
        raise requests.exceptions.RequestException(...)
    content_type = image_response.headers.get("Content-Type", "").lower()
    file_extension = mime_types.get(content_type)
    if not file_extension:
        return None
    response = requests.post(GROUPME_IMAGE_API, headers=..., data=image_response.content, ...)
    if response.status_code == 200:
        publish_log_pg(image_response.content, source, response.status_code, uid,
                       routing_key="groupme.img")
        return response.json()
    publish_log_pg(image_response.content, source, response.status_code, uid,
                   routing_key="groupme.img")
    return None
except requests.exceptions.RequestException as e:
    return None
```

Both audit calls pass `image_response.content` — raw bytes — as the `body`
argument of `publish_log_pg`, whose `{**body, ...}` requires a mapping. -/

/-- The supported content types (`mime_types` in `upload_image`). -/
def mime_types : List (String × String) :=
  [("image/gif", ".gif"), ("image/jpeg", ".jpeg"), ("image/png", ".png")]

/-- Lookup in a string-to-string association list (`mime_types.get`). -/
def alistGetS (l : List (String × String)) (k : String) : Option String :=
  (l.find? (fun p => p.fst == k)).map Prod.snd

/-- Outcome of the `requests.get` fetch of the remote image: a network
fault, or a response with status code, optional `Content-Type` header, and
content bytes. -/
inductive FetchOutcome where
  | fault
  | resp (status : Int) (contentType : Option String) (content : List Nat)
deriving DecidableEq

/-- Outcome of the `requests.post` upload to the GroupMe image service: a
network fault, or a response with status code and parsed JSON value
(`response.json()`, abstracted to a scalar). -/
inductive UploadOutcome where
  | fault
  | resp (status : Int) (json : SVal)
deriving DecidableEq

/-- What one call of `GroupMe.upload_image` does: its returned value (or
the exception it propagates), and the audit publishes it performs.
`result = .ok none` models `return None`. -/
structure UploadResult where
  result : Except PyErr (Option SVal)
  audits : List Publish

/-- `GroupMe.upload_image`, with both HTTP outcomes as explicit parameters.
The `try`/`except` catches only `requests.exceptions.RequestException`
(converted to `return None`); the `TypeError` raised by `publish_log_pg`
when handed the raw bytes propagates. -/
def upload_image (fetch : FetchOutcome) (upload : UploadOutcome)
    (source uid : String) : UploadResult :=
  match fetch with
  | .fault => { result := .ok none, audits := [] }
  | .resp status ct content =>
    if status ≠ 200 then { result := .ok none, audits := [] }
    else
      let content_type := pyLower (ct.getD "")
      match alistGetS mime_types content_type with
      | none => { result := .ok none, audits := [] }
      | some _file_extension =>
        match upload with
        | .fault => { result := .ok none, audits := [] }
        | .resp ustatus json =>
          match publish_log_pg (.bytes content) source ustatus uid "groupme.img" "log" with
          | .ok p =>
            if ustatus = 200 then { result := .ok (some json), audits := [p] }
            else { result := .ok none, audits := [p] }
          | .error e => { result := .error e, audits := [] }

/-! ## Segment rendering (`GroupMe.send_text_segments`, src/utils/groupme.py lines 132-171)

```python
before_dash_split = uid.split("-", 1)[0]
total_segments = len(segments)
for index, segment in enumerate(segments, start=1):
    segment_label = f"({index}/{total_segments}):\n" if total_segments > 1 else ""
    end_marker = (f"\n---UID---\n{before_dash_split}\n---------"
                  if index == total_segments else "")
    data = {"text": f'{segment_label}"{segment}"{end_marker}'}
    GroupMe.send_to_groupme(data, source, uid=uid)
    time.sleep(0.1)
```

Each loop iteration issues one delivery call; the model returns the list of
those calls in order.  The `data` dict holds a single `"text"` entry, which
is modelled as the `text` field of a call record; the 100ms `time.sleep`
between calls is real time and is not part of the model.  Rendered text is
modelled as `List Char` so that it composes with `split_message`. -/

/-- One delivery call issued by the segment loop: the rendered text of the
`data` dict, the `source` argument, and the `uid` keyword argument
(`some uid`: the loop always passes `uid` explicitly). -/
structure SendCall where
  text : List Char
  source : String
  uid : Option String
deriving DecidableEq

/-- `GroupMe.send_text_segments`. -/
def send_text_segments (segments : List (List Char)) (source uid : String) :
    List SendCall :=
  let before_dash_split := uidBeforeDash uid
  let total_segments := segments.length
  segments.enum.map (fun pr =>
    let index := pr.fst + 1
    let segment := pr.snd
    let segment_label :=
      if total_segments > 1 then
        ("(" ++ toString index ++ "/" ++ toString total_segments ++ "):\n").toList
      else []
    let end_marker :=
      if index = total_segments then
        ("\n---UID---\n" ++ before_dash_split ++ "\n---------").toList
      else []
    { text := segment_label ++ "\"".toList ++ segment ++ "\"".toList ++ end_marker,
      source := source, uid := some uid })

/-! ## Configuration (src/config.py)

```python
TWILIO_SOURCE = os.getenv("TWILIO_SOURCE", "twilio")
GLOBAL_BLOCKLIST = [
    "source.twilio.sms.outgoing",
    "source.twilio.call-events",
    "source.twilio.voice-intelligence",
]
```

The model uses the defaults of the environment lookups. -/

def TWILIO_SOURCE : String := "twilio"

/-- `GLOBAL_BLOCKLIST` (src/config.py lines 31-35), "routing keys we don't
want to deal with globally".  Note that `src/rabbitmq/consumer.py` line 18
imports the name `BLOCKLIST` from `config`, which `config.py` does not
define (it defines `GLOBAL_BLOCKLIST` and `SEND_BLOCKLIST`) — importing the
module as written raises `ImportError`; the model identifies the consumer's
`BLOCKLIST` with the configured global blocklist, as the spec describes. -/
def GLOBAL_BLOCKLIST : List String :=
  ["source.twilio.sms.outgoing", "source.twilio.call-events",
   "source.twilio.voice-intelligence"]

/-! ## Consumption callback (src/rabbitmq/consumer.py lines 26-165)

```python
message = json.loads(body)
copy = method.routing_key
stripped_key = copy.replace("source.", "")
if stripped_key in BLOCKLIST:
    ch.basic_nack(..., requeue=False); return
sender = message.get("From") or message.get("source")
if not sender and (not message.get("body") or not message.get("Body")):
    ch.basic_nack(..., requeue=False); return
if (not message.get("source") == TWILIO_SOURCE
        and not message.get("source") == "standard"):
    ch.basic_nack(..., requeue=False); return
... sanitize body unless alreadysent; assign wbor_message_id if absent ...
handler = MESSAGE_HANDLERS[method.routing_key.split(".")[1]]
subkey = ".".join(method.routing_key.split(".")[2:])
result = handler.process_message(message, subkey, alreadysent)
if result: ch.basic_ack(...) else: ch.basic_nack(..., requeue=False)
```

The model captures which branch a decoded delivery takes.  Sanitization and
uid assignment (lines 108-128) mutate the message between the source check
and the handler invocation but do not change which branch is taken, so they
do not appear in the branch model; the handler's boolean result is a
parameter. -/

/-- The branch the consumer callback takes for a decoded delivery:
rejection (nack without requeue) at the blocklist check, at the
identity/body check, or at the source allow-list check; an uncaught
`IndexError` when the routing key has fewer than two dot-separated parts;
or dispatch to the handler selected by the routing key's second part with
the remaining parts as subkey, acked when the handler returns true and
nacked without requeue otherwise. -/
inductive CallbackOutcome where
  | nackBlocklist
  | nackMissingFields
  | nackBadSource
  | crashIndexError
  | reachesHandler (handlerKey : String) (subkey : String) (handlerResult : Bool)
deriving DecidableEq

/-- The dispatch decisions of `callback` on one decoded delivery. -/
def callbackOutcome (routingKey : String) (message : Dict)
    (handlerResult : Bool) : CallbackOutcome :=
  let stripped_key := pyReplace routingKey "source." ""
  if GLOBAL_BLOCKLIST.contains stripped_key then .nackBlocklist
  else
    let sender := pyOr (dictGet message "From") (dictGet message "source")
    if !(truthy sender) &&
        (!(truthy (dictGet message "body")) || !(truthy (dictGet message "Body"))) then
      .nackMissingFields
    else if !(pyEqStr (dictGet message "source") TWILIO_SOURCE) &&
        !(pyEqStr (dictGet message "source") "standard") then
      .nackBadSource
    else
      let parts := pySplit routingKey '.'
      if parts.length < 2 then .crashIndexError
      else .reachesHandler (parts.getD 1 "") (pyJoin "." (parts.drop 2)) handlerResult

/-! ## Direct-send endpoint (`send_message`, src/routes/send.py lines 16-81)

```python
body = request.json
if body.get("password") != APP_PASSWORD:
    return "Unauthorized"
body.remove("password")
required_fields = ["body", "source"]
missing_fields = [field for field in required_fields if field not in body]
if missing_fields:
    return "Bad Request"
extra_fields = [field for field in body.keys() if field not in required_fields]
if extra_fields and extra_fields not in ["images", "wbor_message_id"]:
    return "Bad Request"
sender_uid = body.get("wbor_message_id")
if sender_uid is None:
    body["wbor_message_id"] = MessageUtils.gen_uuid()
publish_message(body, body.get("source"))
return "OK"
```

`APP_PASSWORD = os.getenv("APP_PASSWORD")` may be absent, so it is an
optional string.  `MessageUtils.gen_uuid()` lives in `utils/message.py`
(not part of the sources); its produced value is a parameter of the
model. -/

/-- The value a request to `/send` produces: one of the plain-text replies,
with `okPublished` also carrying the message handed to `publish_message`
and the final routing key it publishes under (after the `"source."`
prepend). -/
inductive SendOutcome where
  | okPublished (published : Dict) (routing_key : String)
  | unauthorized
  | badRequest
deriving DecidableEq

/-- Python `body.remove("password")`: `dict` objects have no attribute
`remove` (removal is spelled `del body[...]` or `body.pop(...)`), so the
attribute access raises `AttributeError` unconditionally. -/
def dict_remove (_d : Dict) (_k : String) : Except PyErr Dict :=
  .error .attributeError

/-- Python `extra_fields not in ["images", "wbor_message_id"]` without the
`not`: `extra_fields` is a *list* of field names, and the membership test
compares it against the string elements `"images"` and
`"wbor_message_id"`; a list is never equal to a string, so the membership
is always false. -/
def pyListInStrList (_xs : List String) (_ys : List String) : Bool := false

/-- The `/send` route handler.  An `.error` result models an exception
escaping the handler (Flask then answers 500 Internal Server Error). -/
def send_message (app_password : Option String) (gen_uuid : String)
    (body : Dict) : Except PyErr SendOutcome :=
  if dictGet body "password" ≠ app_password.map SVal.str then .ok .unauthorized
  else
    match dict_remove body "password" with
    | .error e => .error e
    | .ok body =>
      let missing_fields := ["body", "source"].filter (fun f => !(dictContains body f))
      if !missing_fields.isEmpty then .ok .badRequest
      else
        let extra_fields :=
          (body.map Prod.fst).filter (fun f => !(["body", "source"].contains f))
        if !extra_fields.isEmpty && !(pyListInStrList extra_fields ["images", "wbor_message_id"]) then
          .ok .badRequest
        else
          let body :=
            match dictGet body "wbor_message_id" with
            | none => dictSet body "wbor_message_id" (.str gen_uuid)
            | some _ => body
          let src := match dictGet body "source" with
            | some (.str s) => s
            | _ => ""
          .ok (.okPublished body ("source." ++ src))

/-! ## Admin command parser (`CommandParser.execute_command`,
src/utils/command_parser.py lines 43-136)

Every branch replies through `GroupMe.send_to_groupme({...text...},
source="command_parser")`, always omitting the `uid` argument.  The results
of `admin.ban` and `admin.get_stats` (from `utils/admin.py`, not part of
the sources) are parameters; on a truthy stats result the code does
nothing (`pass`).  The model returns the list of reply calls in order. -/

/-- One reply sent by the command parser: its text, the `source` argument,
and the `uid` argument (`none`: the parser never passes one). -/
structure BotCall where
  text : String
  source : String
  uid : Option String
deriving DecidableEq

def helpText : String :=
  "Available commands:\n!help - Display this help message\n!ping - Check if the bot is online\n!ban <UID> - Ban a phone number from sending messages\n!unban <UID> - Unban a phone number from sending messages\n!stats <UID> - Display message statistics for a phone number"

/-- `CommandParser.execute_command`. -/
def execute_command (text : String) (banResult unbanResult statsResult : Bool) :
    List BotCall :=
  let parts := pySplit text ' '
  let command := pyLower (parts.headD "")
  let uid_arg := if parts.length > 1 then parts.getD 1 "" else "NO_UID"
  if command = "!help" then
    [{ text := helpText, source := "command_parser", uid := none }]
  else if command = "!ping" then
    [{ text := "Pong! UID: " ++ uid_arg, source := "command_parser", uid := none }]
  else if command = "!ban" then
    if banResult then
      [{ text := "Phone # associated with message UID " ++ uid_arg ++ " has been banned from sending messages.",
         source := "command_parser", uid := none }]
    else
      [{ text := "Problem banning phone #. See logs for more information. UID: " ++ uid_arg,
         source := "command_parser", uid := none }]
  else if command = "!unban" then
    if unbanResult then
      [{ text := "Phone # associated with message UID " ++ uid_arg ++ " has been been UNBANNED from sending messages.",
         source := "command_parser", uid := none }]
    else
      [{ text := "Problem unbanning phone #. See logs for more information. UID: " ++ uid_arg,
         source := "command_parser", uid := none }]
  else if command = "!stats" then
    if statsResult then []
    else
      [{ text := "Problem fetching message statistics. See logs for more information. UID: " ++ uid_arg,
         source := "command_parser", uid := none }]
  else
    [{ text := "Unknown command.\n\nType `!help` to see a list of available commands.",
       source := "command_parser", uid := none }]

/-! ## Claims -/

/-- C1: the claim says a delivery whose routing key, with the leading
`source.` prefix stripped, matches the configured global blocklist is
rejected before any other validation, and in particular that routing key
`source.twilio.sms.outgoing` is rejected.  The code strips the prefix but
the configured `GLOBAL_BLOCKLIST` entries *retain* it, so the stripped key
`twilio.sms.outgoing` is not in the blocklist and the delivery sails past
the check: with valid fields it reaches the handler dispatch instead of
being rejected. -/
theorem consumer_outgoing_key_not_blocklist_rejected :
    GLOBAL_BLOCKLIST.contains (pyReplace "source.twilio.sms.outgoing" "source." "") = false ∧
    callbackOutcome "source.twilio.sms.outgoing"
        [("From", .str "+12075551234"), ("source", .str "twilio"), ("body", .str "hello")]
        true
      = .reachesHandler "twilio" "sms.outgoing" true :=
  ⟨rfl, rfl⟩

/-- C2 counterexample: the claim says `split(b, limit)` never returns fewer
than one segment and that the empty body yields a single empty segment; the
list comprehension over `range(0, 0, limit)` is empty, so the empty body
yields *zero* segments. -/
theorem split_message_empty_yields_no_segment :
    split_message 900 ([] : List Char) ≠ [([] : List Char)] ∧
    (split_message 900 ([] : List Char)).length = 0 :=
  ⟨by decide, rfl⟩

/-- C2 amended: for every body `b` and positive `limit`,
`split_message limit b` produces exactly `ceil(len(b)/limit)` segments
(written `(b.length + limit - 1) / limit` over naturals); a *non-empty*
body of length at most `limit` yields exactly one segment equal to `b`;
and the empty body yields the empty list of segments (zero segments, not
one). -/
theorem split_message_segment_count (limit : Nat) (b : List Char)
    (hl : 0 < limit) :
    (split_message limit b).length = (b.length + limit - 1) / limit ∧
    (b ≠ [] → b.length ≤ limit → split_message limit b = [b]) ∧
    split_message limit [] = [] :=
  ⟨split_message_length limit b,
   fun hb hle => split_message_single limit hl b hb hle,
   split_message_nil limit⟩

/-- C2 witness: a three-character body with limit 5 is returned as the
single segment equal to the body. -/
theorem split_message_segment_count_witness :
    split_message 5 ['a', 'b', 'c'] = [['a', 'b', 'c']] :=
  (split_message_segment_count 5 ['a', 'b', 'c'] (by decide)).2.1
    (by decide) (by decide)

/-- C3: the claim says every direct-send request ends in `OK`,
`Unauthorized`, or `Bad Request`, with `OK` when the password matches and
the required fields are present.  In the code, every request that passes
the password check immediately executes `body.remove("password")`, and
`dict` has no `remove` attribute: the handler raises `AttributeError`
instead of ever reaching the field checks or `OK`. -/
theorem send_route_authorized_request_raises :
    send_message (some "pw") "gen-1"
        [("password", .str "pw"), ("body", .str "hello"), ("source", .str "standard")]
      = .error .attributeError :=
  rfl

/-- C4: the claim says a message is rejected at the identity/body step
exactly when it has neither a sender identity nor any text-body field, so a
message carrying a `body` field should pass.  The code's condition is
`not sender and (not body or not Body)` — `or` where its own comment says
"both … missing" — so a sender-less message carrying only `body` (the
non-Twilio spelling) is rejected at that step. -/
theorem consumer_body_only_message_rejected :
    truthy (dictGet [("body", SVal.str "hello")] "body") = true ∧
    callbackOutcome "source.standard.chat" [("body", SVal.str "hello")] true
      = .nackMissingFields :=
  ⟨rfl, rfl⟩

/-- C5 counterexample: the claim says audit records carry a `type` field
equal to `groupme.msg` for text-message-service calls; the call site passes
`routing_key="groupme.msg"` but leaves `sub_key` at its default, so the
`type` field of the published record is `"log"`. -/
theorem audit_type_field_is_log :
    (send_to_groupme ⟨"w-1"⟩ (.resp 200 "ok") [("text", .str "hi")] "twilio"
        (some "u-2") "bot").audits.map auditType
      = [some (.str "log")] ∧
    some (SVal.str "log") ≠ some (SVal.str "groupme.msg") :=
  ⟨rfl, by decide⟩

/-- C5 amended: every audit record emitted for a text-message-service call
is the payload (with `bot_id` attached) merged with the originating source,
the observed status code (or synthetic 500 on a network fault), the message
uid, and a `type` field equal to `"log"` (the `sub_key` default); the
message/image distinction is carried by the publish routing key —
`groupme.msg`, published as `source.groupme.msg`, for message-service
calls, `groupme.img` for image-service calls — not by the `type` field.
Image-service audit calls hand `publish_log_pg` raw bytes, whose dict merge
raises `TypeError`, so they never produce a record. -/
theorem audit_record_shape :
    (∀ (st : ModuleState) (status : Int) (text : String) (body : Dict)
        (source : String) (uid? : Option String) (bot : String),
      (send_to_groupme st (.resp status text) body source uid? bot).audits
        = [{ request_body :=
               pyDictMerge (dictSet body "bot_id" (.str bot))
                 [("source", .str source), ("code", .int status),
                  ("type", .str "log"), ("uid", .str (uid?.getD st.default_uid))],
             routing_key := "source.groupme.msg" }]) ∧
    (∀ (st : ModuleState) (body : Dict) (source : String) (uid? : Option String)
        (bot : String),
      (send_to_groupme st .fault body source uid? bot).audits
        = [{ request_body :=
               pyDictMerge (dictSet body "bot_id" (.str bot))
                 [("source", .str source), ("code", .int 500),
                  ("type", .str "log"), ("uid", .str (uid?.getD st.default_uid))],
             routing_key := "source.groupme.msg" }]) ∧
    (∀ (bs : List Nat) (source : String) (code : Int) (uid : String),
      publish_log_pg (.bytes bs) source code uid "groupme.img" "log"
        = .error .typeError) :=
  ⟨fun _ _ _ _ _ _ _ => rfl, fun _ _ _ _ _ => rfl, fun _ _ _ _ => rfl⟩

/-- C6: concatenating, in order, the segments of `split_message limit b`
reconstructs `b` exactly, for every body and every positive limit. -/
theorem split_message_concat_exact (limit : Nat) (hl : 0 < limit)
    (b : List Char) : (split_message limit b).flatten = b :=
  split_message_join limit hl b

/-- C6 witness: a five-character body split at limit 3. -/
theorem split_message_concat_exact_witness :
    (split_message 3 ['h', 'e', 'l', 'l', 'o']).flatten = ['h', 'e', 'l', 'l', 'o'] :=
  split_message_concat_exact 3 (by decide) ['h', 'e', 'l', 'l', 'o']

/-- C7: a body of length `2*limit + 5` splits into exactly 3 segments (for
any limit above 4, as the configured default 900 is); rendering three
segments produces exactly three delivery calls whose first two texts carry
the `(1/3)` and `(2/3)` position labels, and whose third carries the
trailing `---UID---` marker containing the uid's text before its first
hyphen; rendering a single segment omits the position label entirely. -/
theorem send_text_segments_rendering :
    (∀ (limit : Nat) (b : List Char), 4 < limit → b.length = 2 * limit + 5 →
      (split_message limit b).length = 3) ∧
    (∀ (s1 s2 s3 : List Char) (source uid : String),
      send_text_segments [s1, s2, s3] source uid
        = [{ text := "(1/3):\n\"".toList ++ s1 ++ "\"".toList,
             source := source, uid := some uid },
           { text := "(2/3):\n\"".toList ++ s2 ++ "\"".toList,
             source := source, uid := some uid },
           { text := "(3/3):\n\"".toList ++ s3 ++ "\"".toList ++
               ("\n---UID---\n" ++ uidBeforeDash uid ++ "\n---------").toList,
             source := source, uid := some uid }]) ∧
    (∀ (s : List Char) (source uid : String),
      send_text_segments [s] source uid
        = [{ text := "\"".toList ++ s ++ "\"".toList ++
               ("\n---UID---\n" ++ uidBeforeDash uid ++ "\n---------").toList,
             source := source, uid := some uid }]) := by
  refine ⟨fun limit b h1 h2 => ?_, fun s1 s2 s3 source uid => ?_,
    fun s source uid => ?_⟩
  · rw [split_message_length, h2]
    have h3 : 2 * limit + 5 + limit - 1 = 4 + limit * 3 := by omega
    rw [h3, Nat.add_mul_div_left 4 3 (by omega), Nat.div_eq_of_lt (by omega)]
  · have h1 : (toString (1 : Nat)).data = ['1'] := rfl
    have h2 : (toString (2 : Nat)).data = ['2'] := rfl
    have h3 : (toString (3 : Nat)).data = ['3'] := rfl
    simp [send_text_segments, List.enum, List.enumFrom, h1, h2, h3]
  · simp [send_text_segments, List.enum, List.enumFrom]

/-- C7 witness: a body of 17 characters at limit 6 yields 3 segments. -/
theorem send_text_segments_rendering_witness :
    (split_message 6 (List.replicate 17 'x')).length = 3 :=
  send_text_segments_rendering.1 6 (List.replicate 17 'x') (by decide) (by simp)

/-- C8: every call of the delivery client emits exactly one audit record;
when the POST returns, the call returns normally and the audit carries the
observed status code, whatever it was; when the POST raises a network
fault, the audit carries the synthetic status 500 and the fault is
re-raised to the caller. -/
theorem send_to_groupme_exactly_one_audit :
    ∀ (st : ModuleState) (post : PostOutcome) (body : Dict) (source : String)
      (uid? : Option String) (bot : String),
    ((send_to_groupme st post body source uid? bot).audits.length = 1) ∧
    (∀ (status : Int) (text : String), post = .resp status text →
      (send_to_groupme st post body source uid? bot).outcome = .ok () ∧
      (send_to_groupme st post body source uid? bot).audits.map auditCode
        = [some (.int status)]) ∧
    (post = .fault →
      (send_to_groupme st post body source uid? bot).outcome = .error .requestException ∧
      (send_to_groupme st post body source uid? bot).audits.map auditCode
        = [some (.int 500)]) := by
  intro st post body source uid? bot
  cases post with
  | resp s t =>
    refine ⟨rfl, fun status text h => ?_, fun h => PostOutcome.noConfusion h⟩
    injection h with h1 h2
    subst h1
    refine ⟨rfl, ?_⟩
    have hmem : keyMem [("source", SVal.str source), ("code", SVal.int s),
        ("type", SVal.str "log"), ("uid", SVal.str (uid?.getD st.default_uid))]
        "code" = true := rfl
    simp only [send_to_groupme, publish_log_pg, List.map_cons, List.map_nil, auditCode]
    rw [dictGet_pyDictMerge_mem _ _ _ hmem]
    rfl
  | fault =>
    refine ⟨rfl, fun status text h => PostOutcome.noConfusion h, fun _ => ⟨rfl, ?_⟩⟩
    have hmem : keyMem [("source", SVal.str source), ("code", SVal.int 500),
        ("type", SVal.str "log"), ("uid", SVal.str (uid?.getD st.default_uid))]
        "code" = true := rfl
    simp only [send_to_groupme, publish_log_pg, List.map_cons, List.map_nil, auditCode]
    rw [dictGet_pyDictMerge_mem _ _ _ hmem]
    rfl

/-- C8 witness: a 201 response returns normally and is audited with code
201. -/
theorem send_to_groupme_exactly_one_audit_witness :
    (send_to_groupme ⟨"w-1"⟩ (.resp 201 "no") [("text", .str "hi")] "twilio"
        (some "u-9") "bot").outcome = .ok () ∧
    (send_to_groupme ⟨"w-1"⟩ (.resp 201 "no") [("text", .str "hi")] "twilio"
        (some "u-9") "bot").audits.map auditCode = [some (.int 201)] :=
  (send_to_groupme_exactly_one_audit ⟨"w-1"⟩ (.resp 201 "no")
    [("text", .str "hi")] "twilio" (some "u-9") "bot").2.1 201 "no" rfl

/-- C9: the claim says a 200 upload response yields the parsed media handle
and that the upload step's success and failure branches both emit an audit
record.  In the code, both branches pass the raw downloaded bytes to
`publish_log_pg`, whose `{**body, ...}` merge raises `TypeError` on a
non-mapping; the error is not a `RequestException`, so it propagates out of
`upload_image` before any handle is returned or any record is published:
on a successful fetch (status 200, content type `image/png`) followed by a
200 upload response, the call raises instead of returning the handle. -/
theorem upload_image_bytes_audit_raises :
    (upload_image (.resp 200 (some "image/png") [137, 80, 78, 71])
        (.resp 200 (.str "https://i.groupme.com/abc")) "twilio" "u-1").result
      = .error .typeError ∧
    (upload_image (.resp 200 (some "image/png") [137, 80, 78, 71])
        (.resp 200 (.str "https://i.groupme.com/abc")) "twilio" "u-1").audits
      = [] :=
  ⟨rfl, rfl⟩

/-- Helper for C10: a delivery-client call that omits the `uid` argument is
audited under the single module-load default uid. -/
theorem audits_uid_of_omitted (st : ModuleState) (post : PostOutcome)
    (body : Dict) (source bot : String) :
    (send_to_groupme st post body source none bot).audits.map auditUid
      = [some (.str st.default_uid)] := by
  cases post with
  | resp s t =>
    have hmem : keyMem [("source", SVal.str source), ("code", SVal.int s),
        ("type", SVal.str "log"), ("uid", SVal.str (none.getD st.default_uid))]
        "uid" = true := rfl
    simp only [send_to_groupme, publish_log_pg, List.map_cons, List.map_nil, auditUid]
    rw [dictGet_pyDictMerge_mem _ _ _ hmem]
    rfl
  | fault =>
    have hmem : keyMem [("source", SVal.str source), ("code", SVal.int 500),
        ("type", SVal.str "log"), ("uid", SVal.str (none.getD st.default_uid))]
        "uid" = true := rfl
    simp only [send_to_groupme, publish_log_pg, List.map_cons, List.map_nil, auditUid]
    rw [dictGet_pyDictMerge_mem _ _ _ hmem]
    rfl

/-- C10: the `uid` parameter default of `send_to_groupme` is evaluated once
at module load (`ModuleState.default_uid`), so every call omitting `uid` is
audited under that same identifier — any two such calls share it — and
every reply produced by the admin command parser omits `uid`. -/
theorem send_to_groupme_shared_default_uid :
    ∀ (st : ModuleState) (p1 : PostOutcome) (b1 : Dict) (s1 bot1 : String)
      (p2 : PostOutcome) (b2 : Dict) (s2 bot2 : String),
    ((send_to_groupme st p1 b1 s1 none bot1).audits.map auditUid
       = [some (.str st.default_uid)]) ∧
    ((send_to_groupme st p1 b1 s1 none bot1).audits.map auditUid
       = (send_to_groupme st p2 b2 s2 none bot2).audits.map auditUid) ∧
    (∀ (text : String) (br ubr sr : Bool),
      (execute_command text br ubr sr).all (fun c => c.uid == none) = true) :=
  fun st p1 b1 s1 bot1 p2 b2 s2 bot2 =>
    ⟨audits_uid_of_omitted st p1 b1 s1 bot1,
     (audits_uid_of_omitted st p1 b1 s1 bot1).trans
       (audits_uid_of_omitted st p2 b2 s2 bot2).symm,
     fun text br ubr sr => by
       simp only [execute_command]
       split_ifs <;> rfl⟩

end Wbor
